import Mathlib

/-!
Verification development for the FBI wanted-persons catalogue viewer.

This file is a shallow embedding of the fetch/aggregation pipeline in
`src/server/api/routers/fbi.ts` (function `getAllWithImages`, helper
`fetchWithRetry`) and of the record transformer `transformPerson`
(duplicated inline at fbi.ts lines 284-312 and as a named function in the
client page component).

The HTTP layer is abstracted as `upstream : Nat → Nat → FetchResult`:
`upstream page attempt` is the outcome of the HTTP call issued for the
given page on the given (0-based) attempt.  A thrown JavaScript error is
modelled as `Except.error`, the `null` return of `fetchWithRetry` as
`Except.ok none`, and a successful parsed page as `Except.ok (some page)`.
The real-time backoff delays are recorded as a list of milliseconds in the
order they are awaited.  `Promise.allSettled` settles its results in the
order the promises were created (ascending page number within a batch),
which the fold below reproduces.
-/

/-- Errors thrown by the pipeline.  `apiError s` is the
`FBI API error: <status> <statusText>` throw at fbi.ts line 60,
`timedOut` the `FBI API request timed out` throw at line 72,
`parseError` a propagated body-parse failure (line 64), and
`firstPageFailed429` the explicit
`FBI API error: Failed to fetch first page after retries (429 Too Many Requests)`
throw at fbi.ts lines 209-211. -/
inductive FbiError where
  | apiError (status : Nat)
  | timedOut
  | parseError
  | firstPageFailed429
deriving Repr, DecidableEq

/-- Embeds `const MAX_RETRIES = 5` (fbi.ts line 9). -/
def MAX_RETRIES : Nat := 5

/-- Embeds `const INITIAL_DELAY_MS = 1000` (fbi.ts line 10). -/
def INITIAL_DELAY_MS : Nat := 1000

/-- Embeds the literal `30000` of `setTimeout(() => controller.abort(), 30000)`
(fbi.ts line 25): the fixed per-call timeout in milliseconds.  The timer
itself is real-time behaviour; its firing is modelled as the
`FetchResult.timeout` outcome of an attempt. -/
def TIMEOUT_MS : Nat := 30000

/-- Embeds `const pageSize = 50` (fbi.ts line 187). -/
def pageSize : Nat := 50

/-- Embeds `const BATCH_SIZE = 5` (fbi.ts line 219). -/
def BATCH_SIZE : Nat := 5

/-- Embeds the `WantedImage` interface (fbi.ts lines 103-108). -/
structure WantedImage where
  caption : Option String
  original : Option String
  large : Option String
  thumb : Option String
deriving Repr, DecidableEq

/-- Embeds one entry of the `files` array of a `WantedPerson`
(fbi.ts line 116). -/
structure WantedFile where
  url : Option String
  name : Option String
deriving Repr, DecidableEq

/-- Embeds the `WantedPerson` interface (fbi.ts lines 110-154), the raw
upstream record.  JavaScript `number` fields are modelled as `Int`. -/
structure WantedPerson where
  pathId : Option String
  uid : Option String
  title : Option String
  description : Option String
  images : Option (List WantedImage)
  files : Option (List WantedFile)
  warning_message : Option String
  remarks : Option String
  details : Option String
  additional_information : Option String
  caution : Option String
  reward_text : Option String
  reward_min : Option Int
  reward_max : Option Int
  dates_of_birth_used : Option (List String)
  place_of_birth : Option String
  locations : Option (List String)
  field_offices : Option (List String)
  legat_names : Option (List String)
  status : Option String
  person_classification : Option String
  poster_classification : Option String
  ncic : Option String
  age_min : Option Int
  age_max : Option Int
  weight_min : Option Int
  weight_max : Option Int
  height_min : Option Int
  height_max : Option Int
  eyes : Option String
  hair : Option String
  build : Option String
  sex : Option String
  race : Option String
  nationality : Option String
  scars_and_marks : Option String
  complexion : Option String
  occupations : Option (List String)
  possible_countries : Option (List String)
  possible_states : Option (List String)
  modified : Option String
  publication : Option String
  path : Option String
deriving Repr, DecidableEq

/-- Embeds the `WantedResultSet` interface (fbi.ts lines 158-162): one
upstream page response. -/
structure WantedResultSet where
  total : Nat
  page : Nat
  items : List WantedPerson
deriving Repr, DecidableEq

/-- Embeds the `WantedPersonSummary` interface (fbi.ts lines 164-168): the
display projection (DisplayRecord of the specification). -/
structure WantedPersonSummary where
  image : WantedImage
  name : String
  detailUrl : String
deriving Repr, DecidableEq

/-- Outcome of one HTTP attempt for one page, as seen by `fetchWithRetry`:
a 200 response with a parseable body, a 429 rate-limit response, another
non-ok status code, a fired 30-second abort timer, or a 200 response whose
body fails to parse. -/
inductive FetchResult where
  | success (page : WantedResultSet)
  | rateLimited
  | httpError (status : Nat)
  | timeout
  | parseFailure
deriving Repr, DecidableEq

/-- Embeds the `while (attempt <= maxRetries)` loop body of `fetchWithRetry`
(fbi.ts lines 23-97).  `resp a` is the outcome of the HTTP attempt with
0-based counter `a`.  The first component is the function result
(`Except.error` = JavaScript throw, `Except.ok none` = the `return null` on
retry exhaustion, `Except.ok (some page)` = parsed success); the second
component lists the backoff delays awaited, in order.  The loop body runs
at most `maxRetries + 1` times because `attempt` is incremented on every
`continue`; the structural `fuel` argument bounds the recursion and is
initialised to that count. -/
def fetchWithRetryGo (resp : Nat → FetchResult) (maxRetries : Nat) :
    Nat → Nat → Except FbiError (Option WantedResultSet) × List Nat
  | _, 0 => (Except.ok none, [])
  | attempt, fuel + 1 =>
    if attempt ≤ maxRetries then
      match resp attempt with
      | FetchResult.rateLimited =>
        if attempt < maxRetries then
          let delayMs := INITIAL_DELAY_MS * 2 ^ attempt
          let rest := fetchWithRetryGo resp maxRetries (attempt + 1) fuel
          (rest.1, delayMs :: rest.2)
        else
          (Except.ok none, [])
      | FetchResult.httpError status => (Except.error (FbiError.apiError status), [])
      | FetchResult.success page => (Except.ok (some page), [])
      | FetchResult.timeout => (Except.error FbiError.timedOut, [])
      | FetchResult.parseFailure => (Except.error FbiError.parseError, [])
    else
      (Except.ok none, [])

/-- Embeds `fetchWithRetry(url, options, maxRetries = MAX_RETRIES)`
(fbi.ts lines 16-100): starts the retry loop at `attempt = 0`. -/
def fetchWithRetry (resp : Nat → FetchResult) (maxRetries : Nat := MAX_RETRIES) :
    Except FbiError (Option WantedResultSet) × List Nat :=
  fetchWithRetryGo resp maxRetries 0 (maxRetries + 1)

/-- Embeds the detail-URL construction
`person.path ? "https://www.fbi.gov" + person.path : person.pathId ?? ""`
(fbi.ts lines 299-301, part_000 lines 138-140).  The JavaScript conditional
tests truthiness, so an empty-string `path` falls through to the `pathId`
fallback. -/
def detailUrlOf (person : WantedPerson) : String :=
  match person.path with
  | some s => if s = "" then person.pathId.getD "" else "https://www.fbi.gov" ++ s
  | none => person.pathId.getD ""

/-- Embeds `transformPerson` (part_000 lines 124-151), which is also the
per-record filter inlined in the aggregation loop of `getAllWithImages`
(fbi.ts lines 284-312).  The guard `!image.original` is a JavaScript
truthiness test, so both a `null` and an empty-string original URL reject
the record; likewise `!detailUrl` rejects the empty string. -/
def transformPerson (person : WantedPerson) : Option WantedPersonSummary :=
  match person.images with
  | none => none
  | some [] => none
  | some (image :: _) =>
    match image.original with
    | none => none
    | some orig =>
      if orig = "" then
        none
      else
        let detailUrl := detailUrlOf person
        if detailUrl = "" then
          none
        else
          some { image := image, name := person.title.getD "Unknown", detailUrl := detailUrl }

/-- Mutable accumulation state of the batch loop of `getAllWithImages`
(fbi.ts lines 220-221), plus the ghost field `scheduled` recording, in
order, the page numbers for which a fetch was issued (the construction of
`batchPromises`, fbi.ts lines 225-240). -/
structure BatchState where
  remainingPages : List WantedResultSet
  failedPages : List Nat
  scheduled : List Nat
deriving Repr, DecidableEq

/-- Embeds the settlement of one batch entry (fbi.ts lines 245-256): a
fulfilled promise with a page is accumulated, a fulfilled promise with
`null` records the page number as failed, and a rejected promise (a throw
from `fetchWithRetry`) is only logged — `Promise.allSettled` never lets it
escape, so the state is unchanged. -/
def settlePage (upstream : Nat → Nat → FetchResult) (st : BatchState) (pageNum : Nat) :
    BatchState :=
  match (fetchWithRetry (upstream pageNum) MAX_RETRIES).1 with
  | Except.ok (some page) => { st with remainingPages := st.remainingPages ++ [page] }
  | Except.ok none => { st with failedPages := st.failedPages ++ [pageNum] }
  | Except.error _ => st

/-- Embeds the batch loop
`for (let batchStart = 1; batchStart < totalPages; batchStart += BATCH_SIZE)`
(fbi.ts lines 223-257).  Each iteration fetches pages
`batchStart + 1 .. min (batchStart + BATCH_SIZE) totalPages` (the
`Array.from` index map at lines 225-226) and settles them in promise
order.  The loop runs at most `totalPages` times since `batchStart`
strictly increases, so the structural `fuel` argument is initialised to
`totalPages` at the call site. -/
def batchLoop (upstream : Nat → Nat → FetchResult) (totalPages : Nat) :
    Nat → Nat → BatchState → BatchState
  | 0, _, st => st
  | fuel + 1, batchStart, st =>
    if batchStart < totalPages then
      let batchEnd := min (batchStart + BATCH_SIZE) totalPages
      let pages := (List.range (batchEnd - batchStart)).map (fun i => batchStart + i + 1)
      batchLoop upstream totalPages fuel (batchStart + BATCH_SIZE)
        (pages.foldl (settlePage upstream) { st with scheduled := st.scheduled ++ pages })
    else
      st

/-- Embeds `Math.ceil((firstPageData.total ?? 0) / pageSize)`
(fbi.ts line 215); for natural `total` and `pageSize = 50` the real
ceiling equals this natural-number rounding-up division. -/
def totalPagesOf (total : Nat) : Nat :=
  (total + pageSize - 1) / pageSize

/-- Embeds the body of the `getAllWithImages` query (fbi.ts lines 183-315).
Page 1 is fetched first; a throw propagates and a `null` becomes the
explicit first-page error (lines 202-212).  Then the batch loop collects
the remaining pages, all items are concatenated (page-1 items first,
lines 267-270), and each item is passed through the inline per-record
filter — the function `transformPerson` — skipping rejected records
(lines 282-312).  The returned pair is the `result` array together with
the `failedPages` diagnostic list. -/
def getAllWithImages (upstream : Nat → Nat → FetchResult) :
    Except FbiError (List WantedPersonSummary × List Nat) :=
  match (fetchWithRetry (upstream 1) MAX_RETRIES).1 with
  | Except.error e => Except.error e
  | Except.ok none => Except.error FbiError.firstPageFailed429
  | Except.ok (some firstPageData) =>
    let totalPages := totalPagesOf firstPageData.total
    let st := batchLoop upstream totalPages totalPages 1 ⟨[], [], []⟩
    let allItems := firstPageData.items ++ st.remainingPages.flatMap (fun p => p.items)
    Except.ok (allItems.filterMap transformPerson, st.failedPages)

/-- Classifies the page-level outcome of `fetchWithRetry` for page `p`:
the parsed page if the fetch succeeded, `none` otherwise. -/
def successPage (upstream : Nat → Nat → FetchResult) (p : Nat) : Option WantedResultSet :=
  match (fetchWithRetry (upstream p) MAX_RETRIES).1 with
  | Except.ok (some page) => some page
  | _ => none

/-- Classifies the page-level outcome of `fetchWithRetry` for page `p`:
`some p` exactly when the fetch exhausted its retries and returned `null`. -/
def nullPage (upstream : Nat → Nat → FetchResult) (p : Nat) : Option Nat :=
  match (fetchWithRetry (upstream p) MAX_RETRIES).1 with
  | Except.ok none => some p
  | _ => none

/-- The retry loop, entered at `attempt` with every response up to attempt
`k` being a 429, runs through the backoff delays for attempts
`attempt, …, k - 1` and continues from attempt `k`. -/
theorem fetchWithRetryGo_reach (resp : Nat → FetchResult) (maxRetries k : Nat)
    (hk : k ≤ maxRetries) (hrl : ∀ i, i < k → resp i = FetchResult.rateLimited) :
    ∀ fuel attempt, attempt ≤ k → k - attempt < fuel →
      fetchWithRetryGo resp maxRetries attempt fuel =
        ((fetchWithRetryGo resp maxRetries k (fuel - (k - attempt))).1,
          ((List.range' attempt (k - attempt)).map (fun a => INITIAL_DELAY_MS * 2 ^ a)) ++
            (fetchWithRetryGo resp maxRetries k (fuel - (k - attempt))).2) := by
  intro fuel
  induction fuel with
  | zero => intro attempt _ hlt; omega
  | succ fuel ih =>
    intro attempt hak hlt
    by_cases hek : attempt = k
    · subst hek
      simp
    · have hlt' : attempt < k := Nat.lt_of_le_of_ne hak hek
      have h1 : k - attempt = (k - (attempt + 1)) + 1 := by omega
      have h2 : fuel + 1 - (k - attempt) = fuel - (k - (attempt + 1)) := by omega
      have h3 : attempt ≤ maxRetries := by omega
      have h4 : attempt < maxRetries := by omega
      simp only [fetchWithRetryGo, hrl attempt hlt', if_pos h3, if_pos h4]
      rw [ih (attempt + 1) (by omega) (by omega), h2, h1, List.range'_succ]
      simp

/-- Exiting the retry loop at attempt `k` on a success returns the parsed
page with no further delay. -/
theorem fetchWithRetryGo_stop_success (resp : Nat → FetchResult) (maxRetries k fuel : Nat)
    (page : WantedResultSet) (hk : k ≤ maxRetries) (hs : resp k = FetchResult.success page) :
    fetchWithRetryGo resp maxRetries k (fuel + 1) = (Except.ok (some page), []) := by
  simp only [fetchWithRetryGo, hs, if_pos hk]

/-- Exiting the retry loop at attempt `k` on a timeout throws the timed-out
error immediately. -/
theorem fetchWithRetryGo_stop_timeout (resp : Nat → FetchResult) (maxRetries k fuel : Nat)
    (hk : k ≤ maxRetries) (hs : resp k = FetchResult.timeout) :
    fetchWithRetryGo resp maxRetries k (fuel + 1) = (Except.error FbiError.timedOut, []) := by
  simp only [fetchWithRetryGo, hs, if_pos hk]

/-- Exiting the retry loop at attempt `k` on a non-429 error status throws
immediately. -/
theorem fetchWithRetryGo_stop_httpError (resp : Nat → FetchResult) (maxRetries k fuel : Nat)
    (status : Nat) (hk : k ≤ maxRetries) (hs : resp k = FetchResult.httpError status) :
    fetchWithRetryGo resp maxRetries k (fuel + 1) =
      (Except.error (FbiError.apiError status), []) := by
  simp only [fetchWithRetryGo, hs, if_pos hk]

/-- A 429 at the final allowed attempt makes the loop give up and return
`null`. -/
theorem fetchWithRetryGo_stop_exhausted (resp : Nat → FetchResult) (maxRetries fuel : Nat)
    (hs : resp maxRetries = FetchResult.rateLimited) :
    fetchWithRetryGo resp maxRetries maxRetries (fuel + 1) = (Except.ok none, []) := by
  simp only [fetchWithRetryGo, hs, if_pos (Nat.le_refl maxRetries), if_neg (Nat.lt_irrefl maxRetries)]

/-- With 429 responses on every attempt before `k` and a success at attempt
`k ≤ MAX_RETRIES`, `fetchWithRetry` returns the parsed page after awaiting
exactly the exponential-backoff delays for attempts `0, …, k-1`. -/
theorem fetchWithRetry_success (resp : Nat → FetchResult) (k : Nat) (page : WantedResultSet)
    (hk : k ≤ MAX_RETRIES) (hrl : ∀ i, i < k → resp i = FetchResult.rateLimited)
    (hs : resp k = FetchResult.success page) :
    fetchWithRetry resp MAX_RETRIES =
      (Except.ok (some page), (List.range k).map (fun a => INITIAL_DELAY_MS * 2 ^ a)) := by
  have hf : MAX_RETRIES + 1 - (k - 0) = (MAX_RETRIES - k) + 1 := by omega
  rw [fetchWithRetry, fetchWithRetryGo_reach resp MAX_RETRIES k hk hrl (MAX_RETRIES + 1) 0
    (Nat.zero_le k) (by omega), hf,
    fetchWithRetryGo_stop_success resp MAX_RETRIES k (MAX_RETRIES - k) page hk hs]
  simp [List.range_eq_range']

/-- With 429 responses on every attempt before `k` and a timeout at attempt
`k ≤ MAX_RETRIES`, `fetchWithRetry` throws the timed-out error at once:
no further retry, no further delay, and no `null` result. -/
theorem fetchWithRetry_timeout (resp : Nat → FetchResult) (k : Nat)
    (hk : k ≤ MAX_RETRIES) (hrl : ∀ i, i < k → resp i = FetchResult.rateLimited)
    (hs : resp k = FetchResult.timeout) :
    fetchWithRetry resp MAX_RETRIES =
      (Except.error FbiError.timedOut, (List.range k).map (fun a => INITIAL_DELAY_MS * 2 ^ a)) := by
  have hf : MAX_RETRIES + 1 - (k - 0) = (MAX_RETRIES - k) + 1 := by omega
  rw [fetchWithRetry, fetchWithRetryGo_reach resp MAX_RETRIES k hk hrl (MAX_RETRIES + 1) 0
    (Nat.zero_le k) (by omega), hf,
    fetchWithRetryGo_stop_timeout resp MAX_RETRIES k (MAX_RETRIES - k) hk hs]
  simp [List.range_eq_range']

/-- With 429 responses on every attempt before `k` and a non-429 error
status at attempt `k ≤ MAX_RETRIES`, `fetchWithRetry` throws at once. -/
theorem fetchWithRetry_httpError (resp : Nat → FetchResult) (k status : Nat)
    (hk : k ≤ MAX_RETRIES) (hrl : ∀ i, i < k → resp i = FetchResult.rateLimited)
    (hs : resp k = FetchResult.httpError status) :
    fetchWithRetry resp MAX_RETRIES =
      (Except.error (FbiError.apiError status),
        (List.range k).map (fun a => INITIAL_DELAY_MS * 2 ^ a)) := by
  have hf : MAX_RETRIES + 1 - (k - 0) = (MAX_RETRIES - k) + 1 := by omega
  rw [fetchWithRetry, fetchWithRetryGo_reach resp MAX_RETRIES k hk hrl (MAX_RETRIES + 1) 0
    (Nat.zero_le k) (by omega), hf,
    fetchWithRetryGo_stop_httpError resp MAX_RETRIES k (MAX_RETRIES - k) status hk hs]
  simp [List.range_eq_range']

/-- With a 429 response on the initial attempt and on all `MAX_RETRIES`
retries, `fetchWithRetry` returns `null` (no throw) after awaiting the
backoff delays for attempts `0, …, MAX_RETRIES - 1`. -/
theorem fetchWithRetry_rateLimited_all (resp : Nat → FetchResult)
    (hrl : ∀ i, resp i = FetchResult.rateLimited) :
    fetchWithRetry resp MAX_RETRIES =
      (Except.ok none, (List.range MAX_RETRIES).map (fun a => INITIAL_DELAY_MS * 2 ^ a)) := by
  have hf : MAX_RETRIES + 1 - (MAX_RETRIES - 0) = 0 + 1 := by omega
  rw [fetchWithRetry, fetchWithRetryGo_reach resp MAX_RETRIES MAX_RETRIES (Nat.le_refl _)
    (fun i _ => hrl i) (MAX_RETRIES + 1) 0 (Nat.zero_le _) (by omega), hf,
    fetchWithRetryGo_stop_exhausted resp MAX_RETRIES 0 (hrl MAX_RETRIES)]
  simp [List.range_eq_range']

/-- Settling a batch's promises in order appends the successful pages and
the permanently-failed page numbers, in page order, and issues no new
fetches. -/
theorem foldl_settlePage (u : Nat → Nat → FetchResult) (pages : List Nat) :
    ∀ st : BatchState,
      pages.foldl (settlePage u) st =
        ⟨st.remainingPages ++ pages.filterMap (successPage u),
         st.failedPages ++ pages.filterMap (nullPage u),
         st.scheduled⟩ := by
  induction pages with
  | nil => intro st; simp
  | cons p rest ih =>
    intro st
    rw [List.foldl_cons, ih]
    cases h : (fetchWithRetry (u p) MAX_RETRIES).1 with
    | error e =>
      simp [settlePage, successPage, nullPage, h]
    | ok v =>
      cases v with
      | none => simp [settlePage, successPage, nullPage, h]
      | some page => simp [settlePage, successPage, nullPage, h]

/-- The batch loop started at `batchStart` with enough fuel visits exactly
the pages `batchStart + 1, …, totalPages`, in ascending order: it schedules
each of them once, accumulates the successful pages in page order, and
records the permanently-failed page numbers in page order. -/
theorem batchLoop_spec (u : Nat → Nat → FetchResult) (n : Nat) :
    ∀ fuel start st, n ≤ start + BATCH_SIZE * fuel →
      batchLoop u n fuel start st =
        ⟨st.remainingPages ++ (List.range' (start + 1) (n - start)).filterMap (successPage u),
         st.failedPages ++ (List.range' (start + 1) (n - start)).filterMap (nullPage u),
         st.scheduled ++ List.range' (start + 1) (n - start)⟩ := by
  intro fuel
  induction fuel with
  | zero =>
    intro start st hle
    have h0 : n - start = 0 := by simp [BATCH_SIZE] at hle; omega
    simp [batchLoop, h0]
  | succ fuel ih =>
    intro start st hle
    by_cases hlt : start < n
    · have hmap : (fun i => start + i + 1) = (fun i => (start + 1) + i) := by
        funext i; omega
      rw [batchLoop, if_pos hlt]
      simp only [hmap, ← List.range'_eq_map_range]
      rw [foldl_settlePage, ih (start + BATCH_SIZE)
        ⟨_, _, _⟩ (by simp [BATCH_SIZE] at hle ⊢; omega)]
      have harith : n - (start + BATCH_SIZE) + (min (start + BATCH_SIZE) n - start) =
          n - start := by simp [BATCH_SIZE]; omega
      have hstart : start + 1 + (min (start + BATCH_SIZE) n - start) =
          start + BATCH_SIZE + 1 ∨ n - (start + BATCH_SIZE) = 0 := by
        simp [BATCH_SIZE]; omega
      rcases hstart with hstart | hstart
      · simp only [List.append_assoc, ← List.filterMap_append, ← hstart,
          List.range'_append_1, harith]
      · simp only [hstart, List.range'_zero, List.append_nil, List.filterMap_nil]
        have hmin : min (start + BATCH_SIZE) n - start = n - start := by
          simp [BATCH_SIZE] at hstart ⊢; omega
        simp [hmin]
    · have h0 : n - start = 0 := by omega
      rw [batchLoop, if_neg hlt]
      simp [h0]

/-- When the page-1 fetch succeeds, `getAllWithImages` returns the page-1
items followed by the items of the successfully fetched pages
`2, …, totalPages` in ascending page order, filtered through the record
transformer, together with the list of permanently-failed page numbers. -/
theorem getAllWithImages_ok (u : Nat → Nat → FetchResult) (fp : WantedResultSet)
    (h : (fetchWithRetry (u 1) MAX_RETRIES).1 = Except.ok (some fp)) :
    getAllWithImages u =
      Except.ok
        ((fp.items ++
            ((List.range' 2 (totalPagesOf fp.total - 1)).filterMap (successPage u)).flatMap
              (fun p => p.items)).filterMap transformPerson,
          (List.range' 2 (totalPagesOf fp.total - 1)).filterMap (nullPage u)) := by
  rw [getAllWithImages, h]
  dsimp only
  rw [batchLoop_spec u (totalPagesOf fp.total) (totalPagesOf fp.total) 1 ⟨[], [], []⟩
    (by simp [BATCH_SIZE]; omega)]
  simp

/-- When the page-1 fetch throws, `getAllWithImages` propagates the same
error. -/
theorem getAllWithImages_error (u : Nat → Nat → FetchResult) (e : FbiError)
    (h : (fetchWithRetry (u 1) MAX_RETRIES).1 = Except.error e) :
    getAllWithImages u = Except.error e := by
  rw [getAllWithImages, h]

/-- When the page-1 fetch returns `null` (429 retry budget exhausted),
`getAllWithImages` throws the explicit first-page error. -/
theorem getAllWithImages_null (u : Nat → Nat → FetchResult)
    (h : (fetchWithRetry (u 1) MAX_RETRIES).1 = Except.ok none) :
    getAllWithImages u = Except.error FbiError.firstPageFailed429 := by
  rw [getAllWithImages, h]

/-- The items of page `p` as they reach the final list: the page's items
when its fetch succeeded, nothing otherwise. -/
def pageItems (upstream : Nat → Nat → FetchResult) (p : Nat) : List WantedPerson :=
  match successPage upstream p with
  | some page => page.items
  | none => []

/-- Flattening the successful pages of a page-number list is the same as
flattening each page's contributed items in place. -/
theorem flatMap_successPage_eq_pageItems (u : Nat → Nat → FetchResult) (l : List Nat) :
    (l.filterMap (successPage u)).flatMap (fun p => p.items) = l.flatMap (pageItems u) := by
  induction l with
  | nil => rfl
  | cons p rest ih =>
    cases h : successPage u p <;> simp [pageItems, h, ih]

/-- A page number is recorded as failed exactly when its fetch returned
`null`. -/
theorem nullPage_eq_some (u : Nat → Nat → FetchResult) (q p : Nat)
    (h : nullPage u q = some p) :
    p = q ∧ (fetchWithRetry (u q) MAX_RETRIES).1 = Except.ok none := by
  unfold nullPage at h
  split at h
  · exact ⟨(Option.some.injEq _ _ ▸ h).symm, by assumption⟩
  · exact absurd h (by simp)

/-- A record with a valid first image is kept or dropped purely according
to the constructed detail URL. -/
theorem transformPerson_validImage (person : WantedPerson) (image : WantedImage)
    (rest : List WantedImage) (o : String) (himg : person.images = some (image :: rest))
    (ho : image.original = some o) (hne : o ≠ "") :
    transformPerson person =
      if detailUrlOf person = "" then none
      else some ⟨image, person.title.getD "Unknown", detailUrlOf person⟩ := by
  simp only [transformPerson, himg, ho, if_neg hne]

/-- The fixed public site origin concatenated with anything is never the
empty string. -/
theorem fbiOrigin_append_ne_empty (s : String) : ("https://www.fbi.gov" ++ s) ≠ "" := by
  intro h
  have hlen := congrArg String.length h
  rw [String.length_append] at hlen
  have h19 : ("https://www.fbi.gov" : String).length = 19 := by decide
  have h0 : ("" : String).length = 0 := by decide
  omega

/-- A sample image with a non-empty original URL, for concrete runs. -/
def sampleImage : WantedImage :=
  ⟨none, some "https://img.example/alice.jpg", none, none⟩

/-- A second sample image with a non-empty original URL. -/
def sampleImageB : WantedImage :=
  ⟨none, some "https://img.example/bob.jpg", none, none⟩

/-- A raw record with every nullable field null, the base for concrete
examples. -/
def blankPerson : WantedPerson :=
  ⟨none, none, none, none, none, none, none, none, none, none, none, none, none, none,
   none, none, none, none, none, none, none, none, none, none, none, none, none, none,
   none, none, none, none, none, none, none, none, none, none, none, none, none, none,
   none⟩

/-- A raw record with a valid image and a path. -/
def personA : WantedPerson :=
  { blankPerson with
    title := some "Alice"
    images := some [sampleImage]
    path := some "/wanted/alice" }

/-- A second raw record with a valid image and a path. -/
def personB : WantedPerson :=
  { blankPerson with
    title := some "Bob"
    images := some [sampleImageB]
    path := some "/wanted/bob" }

/-- The display projection of `personA`. -/
def summaryA : WantedPersonSummary :=
  ⟨sampleImage, "Alice", "https://www.fbi.gov/wanted/alice"⟩

/-- The display projection of `personB`. -/
def summaryB : WantedPersonSummary :=
  ⟨sampleImageB, "Bob", "https://www.fbi.gov/wanted/bob"⟩

/-- C1: if the first page cannot be retrieved — a fatal HTTP error such as
500 on the first attempt, or HTTP 429 on every attempt so that
`fetchWithRetry` exhausts its retry budget and returns `null` — then
`getAllWithImages` throws an explicit error and produces no DisplayRecords
at all: the result is an `Except.error`, which carries no record list. -/
theorem c1_firstPageFailureAborts (u : Nat → Nat → FetchResult)
    (h : u 1 0 = FetchResult.httpError 500 ∨ ∀ a, u 1 a = FetchResult.rateLimited) :
    ∃ e, getAllWithImages u = Except.error e := by
  rcases h with h | h
  · refine ⟨FbiError.apiError 500, getAllWithImages_error u _ ?_⟩
    rw [fetchWithRetry_httpError (u 1) 0 500 (Nat.zero_le _)
      (fun i hi => absurd hi (Nat.not_lt_zero i)) h]
  · refine ⟨FbiError.firstPageFailed429, getAllWithImages_null u ?_⟩
    rw [fetchWithRetry_rateLimited_all (u 1) h]

/-- C1 witness: with HTTP 500 on every call, `getAllWithImages` throws. -/
theorem c1_witness :
    ∃ e, getAllWithImages (fun _ _ => FetchResult.httpError 500) = Except.error e :=
  c1_firstPageFailureAborts (fun _ _ => FetchResult.httpError 500) (Or.inl rfl)

/-- Upstream behaviour refuting C2: page 1 succeeds reporting `total = 120`
(3 pages of size 50), page 2 fails fatally with HTTP 500 on its first
attempt, page 3 succeeds. -/
def c2Upstream : Nat → Nat → FetchResult := fun p _ =>
  if p = 1 then FetchResult.success ⟨120, 1, [personA]⟩
  else if p = 2 then FetchResult.httpError 500
  else FetchResult.success ⟨120, 3, [personB]⟩

/-- C2 counterexample: with page 2 failing fatally (HTTP 500, so
`fetchWithRetry` throws), `getAllWithImages` does NOT throw: it returns the
partial list made of the records of pages 1 and 3, with an empty
failed-pages list — `Promise.allSettled` captures the rejection (fbi.ts
lines 243, 252-255) and the loop merely logs it.  This refutes the claim
that a fatal error on a page other than page 1 propagates past the batch
boundary and aborts the whole aggregation. -/
theorem c2_counterexample :
    getAllWithImages c2Upstream = Except.ok ([summaryA, summaryB], []) := by rfl

/-- C2 amended: a fatal failure of any page other than page 1 is captured
by the batch settlement (`Promise.allSettled`), logged, and swallowed:
whenever the page-1 fetch succeeds, `getAllWithImages` returns a (possibly
partial) record list instead of throwing, and the failed-pages list only
ever names pages whose fetch exhausted the 429 retry budget and returned
`null` — a fatally-failed page is absent from it and contributes no
records. -/
theorem c2_fatalPageFailuresSwallowed (u : Nat → Nat → FetchResult) (fp : WantedResultSet)
    (h : (fetchWithRetry (u 1) MAX_RETRIES).1 = Except.ok (some fp)) :
    ∃ recs failed, getAllWithImages u = Except.ok (recs, failed) ∧
      ∀ p ∈ failed, (fetchWithRetry (u p) MAX_RETRIES).1 = Except.ok none := by
  refine ⟨_, _, getAllWithImages_ok u fp h, ?_⟩
  intro p hp
  rcases List.mem_filterMap.mp hp with ⟨q, _, hq⟩
  rcases nullPage_eq_some u q p hq with ⟨rfl, hnull⟩
  exact hnull

/-- C2 amended witness: the scenario of the counterexample instantiates the
amended claim. -/
theorem c2_witness :
    ∃ recs failed, getAllWithImages c2Upstream = Except.ok (recs, failed) ∧
      ∀ p ∈ failed, (fetchWithRetry (c2Upstream p) MAX_RETRIES).1 = Except.ok none :=
  c2_fatalPageFailuresSwallowed c2Upstream ⟨120, 1, [personA]⟩ (by rfl)

/-- C3: a page that answers 429 on the initial attempt and on all 5 retries
makes `fetchWithRetry` return `null` (PermanentlyFailed) rather than throw;
and in the aggregation with `total = 120` (3 pages of size 50), page 2
successful and page 3 rate-limited on all 6 attempts, `getAllWithImages`
still returns the transformed records of pages 1 and 2 while the
failed-pages list is exactly `[3]`. -/
theorem c3_rateLimitedPageAbsorbed :
    (∀ resp : Nat → FetchResult, (∀ a, resp a = FetchResult.rateLimited) →
        (fetchWithRetry resp MAX_RETRIES).1 = Except.ok none) ∧
    (∀ (u : Nat → Nat → FetchResult) (fp p2 : WantedResultSet),
        (fetchWithRetry (u 1) MAX_RETRIES).1 = Except.ok (some fp) →
        fp.total = 120 →
        (fetchWithRetry (u 2) MAX_RETRIES).1 = Except.ok (some p2) →
        (∀ a, u 3 a = FetchResult.rateLimited) →
        getAllWithImages u =
          Except.ok ((fp.items ++ p2.items).filterMap transformPerson, [3])) := by
  have hnull : ∀ resp : Nat → FetchResult, (∀ a, resp a = FetchResult.rateLimited) →
      (fetchWithRetry resp MAX_RETRIES).1 = Except.ok none := by
    intro resp hrl
    rw [fetchWithRetry_rateLimited_all resp hrl]
  refine ⟨hnull, ?_⟩
  intro u fp p2 h1 htotal h2 hrl3
  rw [getAllWithImages_ok u fp h1, htotal]
  have hpages : List.range' 2 (totalPagesOf 120 - 1) = [2, 3] := by decide
  rw [hpages]
  have h3 : (fetchWithRetry (u 3) MAX_RETRIES).1 = Except.ok none := hnull (u 3) hrl3
  simp [successPage, nullPage, h2, h3]

/-- Upstream behaviour witnessing C3: page 1 succeeds with `total = 120`,
page 2 succeeds, page 3 answers 429 on every attempt. -/
def c3Upstream : Nat → Nat → FetchResult := fun p _ =>
  if p = 1 then FetchResult.success ⟨120, 1, [personA]⟩
  else if p = 2 then FetchResult.success ⟨120, 2, [personB]⟩
  else FetchResult.rateLimited

/-- C3 witness: the all-429 fetch returns `null`, and the concrete
`total = 120` aggregation with page 3 rate-limited returns the records of
pages 1 and 2 with failed-pages list `[3]`. -/
theorem c3_witness :
    (fetchWithRetry (fun _ => FetchResult.rateLimited) MAX_RETRIES).1 = Except.ok none ∧
    getAllWithImages c3Upstream =
      Except.ok (([personA] ++ [personB]).filterMap transformPerson, [3]) :=
  ⟨c3_rateLimitedPageAbsorbed.1 (fun _ => FetchResult.rateLimited) (fun _ => rfl),
   c3_rateLimitedPageAbsorbed.2 c3Upstream ⟨120, 1, [personA]⟩ ⟨120, 2, [personB]⟩
     (by rfl) rfl (by rfl) (fun _ => rfl)⟩

/-- C4: the aggregator computes `totalPagesOf total = ceil(total / pageSize)`
from the first page's reported total, and the batch loop — exactly as
invoked by `getAllWithImages` — schedules the ascending page list
`[2, …, totalPages]`, so every page from 2 to `totalPages` is fetched
exactly once and no other page is ever fetched; in particular with
`total = 120` and `pageSize = 50` it computes exactly 3 total pages and
issues exactly the 2 additional fetches for pages 2 and 3. -/
theorem c4_everyPageFetchedOnce (u : Nat → Nat → FetchResult) (n p : Nat) :
    (batchLoop u n n 1 ⟨[], [], []⟩).scheduled = List.range' 2 (n - 1) ∧
    (batchLoop u n n 1 ⟨[], [], []⟩).scheduled.count p =
      (if 2 ≤ p ∧ p ≤ n then 1 else 0) ∧
    totalPagesOf 120 = 3 ∧
    (batchLoop u 3 3 1 ⟨[], [], []⟩).scheduled = [2, 3] := by
  have hsched : ∀ m : Nat,
      (batchLoop u m m 1 ⟨[], [], []⟩).scheduled = List.range' 2 (m - 1) := by
    intro m
    rw [batchLoop_spec u m m 1 ⟨[], [], []⟩ (by simp [BATCH_SIZE]; omega)]
    simp
  refine ⟨hsched n, ?_, by decide, (hsched 3).trans (by decide)⟩
  rw [hsched n]
  by_cases hp : 2 ≤ p ∧ p ≤ n
  · rw [if_pos hp]
    exact List.count_eq_one_of_mem (List.nodup_range' 2 (n - 1))
      (List.mem_range'_1.mpr ⟨hp.1, by omega⟩)
  · rw [if_neg hp]
    refine List.count_eq_zero_of_not_mem (fun hmem => ?_)
    have := List.mem_range'_1.mp hmem
    omega

/-- C5: a DisplayRecord is produced from a RawRecord if and only if the
record has a non-empty images array whose first entry has a non-null,
non-empty original URL and the detail-URL construction yields a non-empty
string; every other record is dropped (`transformPerson` returns `none`),
and consequently every produced record — in particular every record in a
list returned by `getAllWithImages` — has a non-empty `image.original` and
a non-empty `detailUrl`. -/
theorem c5_transformProducesIffValid :
    (∀ person : WantedPerson,
        (transformPerson person).isSome = true ↔
          ((∃ image rest, person.images = some (image :: rest) ∧
              ∃ s, image.original = some s ∧ s ≠ "") ∧
            detailUrlOf person ≠ "")) ∧
    (∀ (person : WantedPerson) (r : WantedPersonSummary),
        transformPerson person = some r →
          (∃ s, r.image.original = some s ∧ s ≠ "") ∧ r.detailUrl ≠ "") ∧
    (∀ (u : Nat → Nat → FetchResult) (recs : List WantedPersonSummary)
        (failed : List Nat) (r : WantedPersonSummary),
        getAllWithImages u = Except.ok (recs, failed) → r ∈ recs →
          (∃ s, r.image.original = some s ∧ s ≠ "") ∧ r.detailUrl ≠ "") := by
  have hprod : ∀ (person : WantedPerson) (r : WantedPersonSummary),
      transformPerson person = some r →
        (∃ s, r.image.original = some s ∧ s ≠ "") ∧ r.detailUrl ≠ "" := by
    intro person r htr
    cases himg : person.images with
    | none => simp [transformPerson, himg] at htr
    | some l =>
      cases l with
      | nil => simp [transformPerson, himg] at htr
      | cons image rest =>
        cases ho : image.original with
        | none => simp [transformPerson, himg, ho] at htr
        | some s =>
          by_cases hs : s = ""
          · subst hs; simp [transformPerson, himg, ho] at htr
          · rw [transformPerson_validImage person image rest s himg ho hs] at htr
            by_cases hd : detailUrlOf person = ""
            · rw [if_pos hd] at htr; cases htr
            · rw [if_neg hd] at htr
              injection htr with h
              subst h
              exact ⟨⟨s, ho, hs⟩, hd⟩
  have hiff : ∀ person : WantedPerson,
      (transformPerson person).isSome = true ↔
        ((∃ image rest, person.images = some (image :: rest) ∧
            ∃ s, image.original = some s ∧ s ≠ "") ∧ detailUrlOf person ≠ "") := by
    intro person
    constructor
    · intro hsome
      cases himg : person.images with
      | none => simp [transformPerson, himg] at hsome
      | some l =>
        cases l with
        | nil => simp [transformPerson, himg] at hsome
        | cons image rest =>
          cases ho : image.original with
          | none => simp [transformPerson, himg, ho] at hsome
          | some s =>
            by_cases hs : s = ""
            · subst hs; simp [transformPerson, himg, ho] at hsome
            · by_cases hd : detailUrlOf person = ""
              · rw [transformPerson_validImage person image rest s himg ho hs,
                  if_pos hd] at hsome
                simp at hsome
              · exact ⟨⟨image, rest, rfl, s, ho, hs⟩, hd⟩
    · rintro ⟨⟨image, rest, himg, s, ho, hs⟩, hd⟩
      rw [transformPerson_validImage person image rest s himg ho hs, if_neg hd]
      rfl
  refine ⟨hiff, hprod, ?_⟩
  intro u recs failed r hok hr
  cases hfp : (fetchWithRetry (u 1) MAX_RETRIES).1 with
  | error e => rw [getAllWithImages_error u e hfp] at hok; cases hok
  | ok v =>
    cases v with
    | none => rw [getAllWithImages_null u hfp] at hok; cases hok
    | some fp =>
      rw [getAllWithImages_ok u fp hfp] at hok
      injection hok with hok
      injection hok with hok1 hok2
      subst hok1
      rcases List.mem_filterMap.mp hr with ⟨person, _, htr⟩
      exact hprod person r htr

/-- C5 witness: the valid sample record yields a record with a non-empty
original image URL and a non-empty detail URL. -/
theorem c5_witness :
    (∃ s, sampleImage.original = some s ∧ s ≠ "") ∧
    ("https://www.fbi.gov/wanted/alice" : String) ≠ "" :=
  c5_transformProducesIffValid.2.1 personA summaryA (by rfl)

/-- C6: for a RawRecord with a valid first image whose path field is
present (non-null and, as the JavaScript truthiness test demands,
non-empty), the produced DisplayRecord's detail URL is exactly the fixed
public site origin `https://www.fbi.gov` concatenated with the path; when
no path is present the construction falls back to the raw `pathId` field,
and when neither yields a non-empty string the record is rejected. -/
theorem c6_detailUrlConstruction :
    (∀ (person : WantedPerson) (image : WantedImage) (rest : List WantedImage) (s o : String),
        person.images = some (image :: rest) →
        image.original = some o → o ≠ "" →
        person.path = some s → s ≠ "" →
        transformPerson person =
          some ⟨image, person.title.getD "Unknown", "https://www.fbi.gov" ++ s⟩) ∧
    (∀ person : WantedPerson, person.path = none →
        detailUrlOf person = person.pathId.getD "") ∧
    (∀ (person : WantedPerson) (image : WantedImage) (rest : List WantedImage) (o : String),
        person.images = some (image :: rest) →
        image.original = some o → o ≠ "" →
        detailUrlOf person = "" →
        transformPerson person = none) := by
  refine ⟨?_, ?_, ?_⟩
  · intro person image rest s o himg ho hne hpath hs
    have hd : detailUrlOf person = "https://www.fbi.gov" ++ s := by
      simp [detailUrlOf, hpath, hs]
    rw [transformPerson_validImage person image rest o himg ho hne, hd,
      if_neg (fbiOrigin_append_ne_empty s)]
  · intro person hpath
    simp [detailUrlOf, hpath]
  · intro person image rest o himg ho hne hd
    rw [transformPerson_validImage person image rest o himg ho hne, if_pos hd]

/-- C6 witness: the sample record with path `/wanted/alice` maps to the
origin-concatenated detail URL. -/
theorem c6_witness :
    transformPerson personA =
      some ⟨sampleImage, personA.title.getD "Unknown", "https://www.fbi.gov" ++ "/wanted/alice"⟩ :=
  c6_detailUrlConstruction.1 personA sampleImage [] "/wanted/alice"
    "https://img.example/alice.jpg" rfl rfl (by decide) rfl (by decide)

/-- C7: on HTTP 429, `fetchWithRetry` waits `INITIAL_DELAY_MS * 2 ^ attempt`
milliseconds before the next attempt, with `INITIAL_DELAY_MS = 1000` and at
most `MAX_RETRIES = 5` retries after the initial attempt: a call
rate-limited on its first `k ≤ 5` attempts that then succeeds observes
exactly the delays `1000·2^0, …, 1000·2^(k-1)` in order — so a page retried
twice before succeeding waits 1000 ms before attempt 2 and 2000 ms before
attempt 3. -/
theorem c7_exponentialBackoff :
    MAX_RETRIES = 5 ∧ INITIAL_DELAY_MS = 1000 ∧
    (∀ (resp : Nat → FetchResult) (k : Nat) (page : WantedResultSet),
        k ≤ MAX_RETRIES →
        (∀ i, i < k → resp i = FetchResult.rateLimited) →
        resp k = FetchResult.success page →
        fetchWithRetry resp MAX_RETRIES =
          (Except.ok (some page),
            (List.range k).map (fun a => INITIAL_DELAY_MS * 2 ^ a))) :=
  ⟨rfl, rfl, fun resp k page hk hrl hs => fetchWithRetry_success resp k page hk hrl hs⟩

/-- Attempt responses for the C7 witness: 429 twice, then success. -/
def c7Resp : Nat → FetchResult := fun a =>
  if a < 2 then FetchResult.rateLimited else FetchResult.success ⟨0, 1, []⟩

/-- C7 witness: a page retried twice before succeeding waits 1000 ms and
then 2000 ms. -/
theorem c7_witness :
    fetchWithRetry c7Resp MAX_RETRIES = (Except.ok (some ⟨0, 1, []⟩), [1000, 2000]) := by
  have h := c7_exponentialBackoff.2.2 c7Resp 2 ⟨0, 1, []⟩ (by decide)
    (fun i hi => by simp [c7Resp, hi]) (by decide)
  have hmap : (List.range 2).map (fun a => INITIAL_DELAY_MS * 2 ^ a) = [1000, 2000] := by
    decide
  rw [h, hmap]

/-- C8: given stable upstream data the record list returned by
`getAllWithImages` is a deterministic function of it, ordered by source
page: exactly the page-1 items followed by the per-page items of pages
2, 3, … in ascending page order (each page's items in upstream order, a
failed page contributing nothing), filtered through the transformer —
independent of any completion order of the concurrent batch requests,
whose settlement order is fixed by `Promise.allSettled`. -/
theorem c8_recordsOrderedByPage (u : Nat → Nat → FetchResult)
    (recs : List WantedPersonSummary) (failed : List Nat)
    (hok : getAllWithImages u = Except.ok (recs, failed)) :
    ∃ fp, (fetchWithRetry (u 1) MAX_RETRIES).1 = Except.ok (some fp) ∧
      recs = (fp.items ++
          (List.range' 2 (totalPagesOf fp.total - 1)).flatMap (pageItems u)).filterMap
        transformPerson := by
  cases hfp : (fetchWithRetry (u 1) MAX_RETRIES).1 with
  | error e => rw [getAllWithImages_error u e hfp] at hok; cases hok
  | ok v =>
    cases v with
    | none => rw [getAllWithImages_null u hfp] at hok; cases hok
    | some fp =>
      rw [getAllWithImages_ok u fp hfp] at hok
      injection hok with hok
      injection hok with hok1 hok2
      refine ⟨fp, rfl, ?_⟩
      rw [← hok1, flatMap_successPage_eq_pageItems]

/-- Upstream behaviour for the C8 witness: two pages, both successful. -/
def c8Upstream : Nat → Nat → FetchResult := fun p _ =>
  if p = 1 then FetchResult.success ⟨100, 1, [personA]⟩
  else FetchResult.success ⟨100, 2, [personB]⟩

/-- C8 witness: the two-page aggregation returns page 1's record then
page 2's record, matching the ascending-page decomposition. -/
theorem c8_witness :
    ∃ fp, (fetchWithRetry (c8Upstream 1) MAX_RETRIES).1 = Except.ok (some fp) ∧
      [summaryA, summaryB] = (fp.items ++
          (List.range' 2 (totalPagesOf fp.total - 1)).flatMap (pageItems c8Upstream)).filterMap
        transformPerson :=
  c8_recordsOrderedByPage c8Upstream [summaryA, summaryB] [] (by rfl)

/-- C9: each HTTP call of `fetchWithRetry` is guarded by the fixed
30-second timeout (`TIMEOUT_MS = 30000`, the abort timer of fbi.ts line 25,
whose firing is the `timeout` outcome of an attempt); when it fires the
call fails fatally: `fetchWithRetry` throws the timed-out error at once —
no retry is made, no further backoff delay is awaited, and `null` is never
returned for a timeout. -/
theorem c9_timeoutIsFatal :
    TIMEOUT_MS = 30000 ∧
    (∀ (resp : Nat → FetchResult) (k : Nat),
        k ≤ MAX_RETRIES →
        (∀ i, i < k → resp i = FetchResult.rateLimited) →
        resp k = FetchResult.timeout →
        fetchWithRetry resp MAX_RETRIES =
          (Except.error FbiError.timedOut,
            (List.range k).map (fun a => INITIAL_DELAY_MS * 2 ^ a))) :=
  ⟨rfl, fun resp k hk hrl ht => fetchWithRetry_timeout resp k hk hrl ht⟩

/-- C9 witness: a timeout on the very first attempt throws at once, with
no delay awaited. -/
theorem c9_witness :
    fetchWithRetry (fun _ => FetchResult.timeout) MAX_RETRIES =
      (Except.error FbiError.timedOut, []) := by
  have h := c9_timeoutIsFatal.2 (fun _ => FetchResult.timeout) 0 (Nat.zero_le _)
    (fun i hi => absurd hi (Nat.not_lt_zero i)) rfl
  simpa using h

/-- C10: for a RawRecord whose first image has a non-empty original URL and
whose path field is present but empty, the transformer does not concatenate
the origin with the empty path: it falls back to `pathId`, so the produced
`detailUrl` equals the `pathId` value verbatim — no `https://www.fbi.gov`
prefix — whenever that value is non-null and non-empty, and the record is
dropped when `pathId` is null or empty. -/
theorem c10_emptyPathFallsBackToPathId (person : WantedPerson) (image : WantedImage)
    (rest : List WantedImage) (o : String)
    (himg : person.images = some (image :: rest))
    (ho : image.original = some o) (hne : o ≠ "")
    (hpath : person.path = some "") :
    (∀ s, person.pathId = some s → s ≠ "" →
        transformPerson person = some ⟨image, person.title.getD "Unknown", s⟩) ∧
    ((person.pathId = none ∨ person.pathId = some "") → transformPerson person = none) := by
  have hdu : detailUrlOf person = person.pathId.getD "" := by
    simp [detailUrlOf, hpath]
  constructor
  · intro s hpid hs
    rw [transformPerson_validImage person image rest o himg ho hne, hdu, hpid]
    simp [hs]
  · intro hpid
    rw [transformPerson_validImage person image rest o himg ho hne, hdu]
    rcases hpid with hpid | hpid <;> simp [hpid]

/-- A raw record with a valid image, an empty path and a non-empty
identifier, for the C10 witness. -/
def personC : WantedPerson :=
  { blankPerson with
    title := some "Carol"
    images := some [sampleImage]
    path := some ""
    pathId := some "carol-id" }

/-- C10 witness: with an empty path and `pathId = "carol-id"`, the
detail URL is `carol-id` verbatim. -/
theorem c10_witness :
    transformPerson personC = some ⟨sampleImage, personC.title.getD "Unknown", "carol-id"⟩ :=
  (c10_emptyPathFallsBackToPathId personC sampleImage [] "https://img.example/alice.jpg"
    rfl rfl (by decide) rfl).1 "carol-id" rfl (by decide)
